import Mathlib

/-!
# Verification of the CarSocketService resilient WebSocket channel

A shallow embedding of `src/services/carSocket.ts` (class `CarSocketService`):
URL normalization, connection lifecycle, bounded reconnection, inbound
message dispatch, the observer registry, and command sending.

JavaScript platform facilities that the class calls (`new URL`,
`WebSocket`, `setTimeout`/`clearTimeout`, `JSON.parse`) are modelled
explicitly; each model carries a doc comment describing the platform
behaviour it captures.  Service methods are translated one-to-one from the
source; stateful methods become functions `SvcState → SvcState × List Effect`
(or `Except`-valued functions where the source body contains operations
that can throw, with `try/catch` rendered as `catchE`).
-/

namespace CarSocket

/-! ## Platform model: WHATWG URL parsing (`new URL(input)`)

The source's `convertToWebSocketUrl` calls `new URL(backendUrl)` and reads
`url.protocol` and `url.host`.  We model the fragment of the WHATWG URL
parser that is relevant to scheme and host extraction:

* a valid scheme is an ASCII letter followed by letters, digits, `+`, `-`,
  `.`, terminated by `:`; an input with no valid scheme fails to parse
  (the constructor throws a `TypeError`);
* for special schemes (`http`, `https`, `ws`, `wss`, `ftp`, `file`) any
  run of slashes after the `:` is skipped and an authority
  `host[:port]` is read up to `/`, `?` or `#`; an empty host is a parse
  failure; the host is ASCII-lowercased;
* the port must be all digits and at most 65535, otherwise the parse
  fails; a port equal to the scheme's default port is dropped (so the
  `host` getter omits it);
* a non-special scheme followed by `//` reads an authority the same way;
  otherwise the URL is an opaque-path URL whose `host` getter returns ""
  (e.g. `new URL("localhost:8080").host = ""`).

Not modelled (irrelevant to every claim below): userinfo, IPv6 host
brackets, percent-encoding, IDNA host mapping, and host code-point
validation.
-/

/-- ASCII lower-case letter. -/
def isLowerCh (c : Char) : Bool :=
  97 ≤ c.toNat && c.toNat ≤ 122

/-- ASCII upper-case letter. -/
def isUpperCh (c : Char) : Bool :=
  65 ≤ c.toNat && c.toNat ≤ 90

/-- ASCII letter. -/
def isAlphaCh (c : Char) : Bool :=
  isLowerCh c || isUpperCh c

/-- ASCII digit. -/
def isDigitCh (c : Char) : Bool :=
  48 ≤ c.toNat && c.toNat ≤ 57

/-- ASCII lower-casing of one character. -/
def asciiLower (c : Char) : Char :=
  if isUpperCh c then Char.ofNat (c.toNat + 32) else c

/-- Characters allowed in a URL scheme after the first (WHATWG). -/
def isSchemeChar (c : Char) : Bool :=
  isAlphaCh c || isDigitCh c || c = '+' || c = '-' || c = '.'

/-- A scheme is a nonempty run starting with an ASCII letter. -/
def validScheme : List Char → Bool
  | [] => false
  | c :: rest => isAlphaCh c && rest.all isSchemeChar


/-- Scanning predicate: not the `:` delimiter. -/
def notColon (c : Char) : Bool :=
  c ≠ ':'

/-- Split `input` at the first `:` into (lowercased scheme, remainder);
`none` when there is no colon or the prefix is not a valid scheme. -/
def takeScheme (cs : List Char) : Option (String × List Char) :=
  let pre := cs.takeWhile notColon
  let post := cs.dropWhile notColon
  match post with
  | ':' :: rest =>
    if validScheme pre then some (String.mk (pre.map asciiLower), rest) else none
  | _ => none

/-- Default port of the special schemes (WHATWG). -/
def defaultPort : String → Option Nat
  | "http" => some 80
  | "https" => some 443
  | "ws" => some 80
  | "wss" => some 443
  | "ftp" => some 21
  | _ => none

/-- The WHATWG special schemes. -/
def isSpecialScheme (s : String) : Bool :=
  s = "file" || (defaultPort s).isSome

/-- Characters terminating the authority component. -/
def isAuthorityEnd (c : Char) : Bool :=
  c = '/' || c = '?' || c = '#'

/-- Scanning predicate: not an authority terminator. -/
def notAuthEnd (c : Char) : Bool :=
  !isAuthorityEnd c

/-- Decimal value of a digit string. -/
def digitsToNat (cs : List Char) : Nat :=
  cs.foldl (fun acc c => acc * 10 + (c.toNat - 48)) 0

/-- Parsed URL record: scheme, host, and port (already `none` when it
equals the scheme's default, as the WHATWG parser stores it). -/
structure UrlParts where
  scheme : String
  host : String
  port : Option Nat
deriving DecidableEq, Repr

/-- Parse the port part of an authority: empty means no port; digits up
to 65535 are accepted and a default port is dropped; anything else is a
parse failure (`new URL` throws). -/
def parsePort (scheme : String) (cs : List Char) : Option (Option Nat) :=
  if cs.isEmpty then some none
  else if cs.all isDigitCh then
    let n := digitsToNat cs
    if n ≤ 65535 then
      if defaultPort scheme = some n then some none else some (some n)
    else none
  else none

/-- Parse `host[:port]` up to the end of the authority. -/
def parseAuthority (scheme : String) (cs : List Char) : Option UrlParts :=
  let auth := cs.takeWhile notAuthEnd
  let hostCs := auth.takeWhile notColon
  let rest := auth.dropWhile notColon
  match rest with
  | ':' :: portCs =>
    match parsePort scheme portCs with
    | some port => some ⟨scheme, String.mk hostCs, port⟩
    | none => none
  | _ => some ⟨scheme, String.mk hostCs, none⟩

/-- Slash characters skipped before a special-scheme authority. -/
def isSlash (c : Char) : Bool :=
  c = '/' || c = '\\'

/-- Modelled platform primitive: the fragment of `new URL(s)` described
above.  `none` models the constructor throwing. -/
def parseURL (s : String) : Option UrlParts :=
  match takeScheme s.data with
  | none => none
  | some (scheme, rest) =>
    if isSpecialScheme scheme then
      match parseAuthority scheme (rest.dropWhile isSlash) with
      | some u =>
        if u.host = "" then none
        else some { u with host := String.mk (u.host.data.map asciiLower) }
      | none => none
    else
      match rest with
      | '/' :: '/' :: tail => parseAuthority scheme tail
      | _ => some ⟨scheme, "", none⟩

/-- The `url.host` getter: `host` or `host:port`. -/
def urlHost (u : UrlParts) : String :=
  match u.port with
  | some p => u.host ++ ":" ++ toString p
  | none => u.host

/-- Models `String.prototype.startsWith`. -/
def strHasPre (p s : String) : Bool :=
  p.data.isPrefixOf s.data

/-- Models `String.prototype.endsWith`. -/
def strHasSuf (p s : String) : Bool :=
  p.data.isSuffixOf s.data

/-- Models `s.replace(pre, rep)` in the contexts where the source uses it:
it is only called under a `startsWith pre` guard, so the first occurrence
replaced is exactly the prefix. -/
def replacePre (pre rep s : String) : String :=
  rep ++ String.mk (s.data.drop pre.data.length)

/-- `CarSocketService.convertToWebSocketUrl` (src lines 33-51): try to
parse the URL and rebuild `protocol + "//" + host + "/ws"` mapping only
`https:` to `wss:` and everything else to `ws:`; on parse failure fall
back to literal prefix substitution, then to treating the input as a bare
host. -/
def convertToWebSocketUrl (backendUrl : String) : String :=
  match parseURL backendUrl with
  | some url =>
    let protocol := if url.scheme = "https" then "wss" else "ws"
    protocol ++ "://" ++ urlHost url ++ "/ws"
  | none =>
    if strHasPre "http://" backendUrl then
      replacePre "http://" "ws://" backendUrl ++ "/ws"
    else if strHasPre "https://" backendUrl then
      replacePre "https://" "wss://" backendUrl ++ "/ws"
    else if strHasPre "ws://" backendUrl || strHasPre "wss://" backendUrl then
      if strHasSuf "/ws" backendUrl then backendUrl else backendUrl ++ "/ws"
    else
      "ws://" ++ backendUrl ++ "/ws"

/-! ## JavaScript values

Payloads flowing through the channel (parsed JSON frames, emitted event
data, outbound messages).  `undefined` is the JavaScript undefined value (the result
of reading an absent property); `jsErr` stands for an `Error` object (or
a DOM error event) carrying a message. -/

/-- A JavaScript value, as far as the service manipulates them. -/
inductive JsValue where
  | undefined
  | null
  | bool (b : Bool)
  | num (n : Int)
  | str (s : String)
  | arr (elems : List JsValue)
  | obj (fields : List (String × JsValue))
  | jsErr (msg : String)

/-- Property lookup in an object's field list (first binding wins, as in
a parsed-JSON object with distinct keys). -/
def lookupField : List (String × JsValue) → String → Option JsValue
  | [], _ => none
  | (k, v) :: rest, key => if k = key then some v else lookupField rest key

/-- JavaScript property access `v.key`: `undefined` when the value is not
an object or lacks the property. -/
def getProp (v : JsValue) (key : String) : JsValue :=
  match v with
  | .obj fields => (lookupField fields key).getD .undefined
  | _ => .undefined

/-! ## The service state

Fields of `class CarSocketService` (src lines 21-28).  Callbacks are
identified by opaque tokens (`Nat`), compared by identity exactly as
JavaScript compares function references.  `listeners` models the
insertion-ordered `Map<string, Function[]>`.  `reconnectTimeout : Bool`
models whether the nullable timer-handle field currently holds a handle
(the source only ever tests it for truthiness). -/

/-- `WebSocket.readyState` values. `opened` is the `OPEN` constant. -/
inductive ReadyState where
  | connecting
  | opened
  | closing
  | closed
deriving DecidableEq, Repr

/-- The socket object owned by the service, as far as it is observed:
its ready state and the URL it was created with. -/
structure Sock where
  readyState : ReadyState
  url : String
deriving DecidableEq, Repr

/-- The fields of `CarSocketService`. -/
structure SvcState where
  socket : Option Sock
  listeners : List (String × List Nat)
  reconnectAttempts : Nat
  maxReconnectAttempts : Nat
  reconnectTimeout : Bool
  reconnectDelay : Nat
  wsUrl : String

/-- The field initializers (src lines 22-28). -/
def initState : SvcState :=
  { socket := none
    listeners := []
    reconnectAttempts := 0
    maxReconnectAttempts := 5
    reconnectTimeout := false
    reconnectDelay := 2000
    wsUrl := "" }

/-! ### The `Map<string, Function[]>` operations used by the source -/

/-- `map.has(k)`. -/
def mapHas : List (String × List Nat) → String → Bool
  | [], _ => false
  | (k', _) :: rest, k => k' = k || mapHas rest k

/-- `map.get(k)` (`none` = `undefined`). -/
def mapGet : List (String × List Nat) → String → Option (List Nat)
  | [], _ => none
  | (k, v) :: rest, key => if k = key then some v else mapGet rest key

/-- `map.set(k, v)`: overwrite in place, or append a new key in insertion
order. -/
def mapSet : List (String × List Nat) → String → List Nat → List (String × List Nat)
  | [], key, v => [(key, v)]
  | (k, w) :: rest, key, v =>
    if k = key then (k, v) :: rest else (k, w) :: mapSet rest key v

/-- `map.delete(k)`. -/
def mapDelete : List (String × List Nat) → String → List (String × List Nat)
  | [], _ => []
  | (k, v) :: rest, key =>
    if k = key then rest else (k, v) :: mapDelete rest key

/-- In-place mutation of the array stored under `k` (models
`map.get(k).push(...)` / `splice`): no effect when `k` is absent. -/
def mapUpdate : List (String × List Nat) → String → (List Nat → List Nat) → List (String × List Nat)
  | [], _, _ => []
  | (k', v) :: rest, k, f =>
    if k' = k then (k', f v) :: rest else (k', v) :: mapUpdate rest k f

/-! ## Observable effects

Each trace-relevant call the service makes to the outside world.
`emitEv` marks a call of the private `emit(event, data)` (the per-handler
invocations it causes are given by `emitCalls` below);
`wireSend` is `socket.send(JSON.stringify(message))`, carrying the
message structurally (`JSON.stringify` is injective on these
fixed-shape objects); `console.*` logging is not modelled. -/

/-- An observable side effect of a service step. -/
inductive Effect where
  | emitEv (event : String) (data : JsValue)
  | wireSend (message : JsValue)
  | setTimer (delayMs : Nat)
  | clearTimer
  | newSocket (url : String)
  | closeSocket (code : Option Nat) (reason : Option String)

/-! ## Service methods -/

/-- `emit` (src lines 236-241): look up the callbacks registered for
`event` and invoke each, in order, with `data`.  The result is the list
of (callback, argument) invocations performed. -/
def emitCalls (st : SvcState) (event : String) (data : JsValue) : List (Nat × JsValue) :=
  match mapGet st.listeners event with
  | some callbacks => callbacks.map (fun c => (c, data))
  | none => []

/-- `on` (src lines 209-214; `on` is reserved in Lean, hence `onEvent`):
ensure a (possibly empty) array exists for `event`, then push `callback`
onto it. -/
def onEvent (st : SvcState) (event : String) (callback : Nat) : SvcState :=
  let ls := if mapHas st.listeners event then st.listeners else mapSet st.listeners event []
  { st with listeners := mapUpdate ls event (fun callbacks => callbacks ++ [callback]) }

/-- `callbacks.splice(callbacks.indexOf(cb), 1)` guarded by
`indexOf > -1`: remove the first occurrence, if any. -/
def spliceFirst : List Nat → Nat → List Nat
  | [], _ => []
  | c :: rest, cb => if c = cb then rest else c :: spliceFirst rest cb

/-- `off` (src lines 219-231): without a callback, delete the whole
entry; with one, remove its first occurrence from the entry's array. -/
def off (st : SvcState) (event : String) (callback : Option Nat) : SvcState :=
  match callback with
  | none => { st with listeners := mapDelete st.listeners event }
  | some cb =>
    match mapGet st.listeners event with
    | some _ => { st with listeners := mapUpdate st.listeners event (fun cbs => spliceFirst cbs cb) }
    | none => st

/-- `isConnected` (src lines 267-269): `socket?.readyState === OPEN`. -/
def isConnected (st : SvcState) : Bool :=
  match st.socket with
  | some s => s.readyState = ReadyState.opened
  | none => false

/-- `resetReconnectAttempts` (src lines 281-283). -/
def resetReconnectAttempts (st : SvcState) : SvcState :=
  { st with reconnectAttempts := 0 }

/-- `scheduleReconnect` (src lines 160-178): at the attempt cap, emit the
terminal error and stop; otherwise increment the counter, clear any
existing timer and set a fresh one for `reconnectDelay` ms. -/
def scheduleReconnect (st : SvcState) : SvcState × List Effect :=
  if st.reconnectAttempts ≥ st.maxReconnectAttempts then
    (st, [Effect.emitEv "error" (.jsErr "Max reconnection attempts reached")])
  else
    let st1 := { st with reconnectAttempts := st.reconnectAttempts + 1 }
    let clearEffs := if st1.reconnectTimeout then [Effect.clearTimer] else []
    ({ st1 with reconnectTimeout := true }, clearEffs ++ [Effect.setTimer st1.reconnectDelay])

/-! ### Throwing platform primitives and `try`/`catch`

`Except String α` is a computation that can throw; `catchE` renders a
source-level `try { body } catch (e) { handler }` whose handler does not
itself throw (the handlers below call only `console.error`, `emit` and
`scheduleReconnect`; subscriber callbacks are external caller code and
are modelled as returning normally). -/

/-- `try`/`catch` with a non-throwing handler. -/
def catchE (body : Except String α) (handler : String → α) : Except String α :=
  match body with
  | .ok a => .ok a
  | .error e => .ok (handler e)

/-- Whether a computation returns normally (no uncaught exception). -/
def isOkB : Except String α → Bool
  | .ok _ => true
  | .error _ => false

/-- Modelled platform primitive: `socket.send(data)` throws
`InvalidStateError` iff the socket is still `CONNECTING` (WHATWG HTML);
in every other ready state the data is sent or silently discarded. -/
def sendPrim (sock : Sock) : Except String Unit :=
  if sock.readyState = ReadyState.connecting then .error "InvalidStateError" else .ok ()

/-- Modelled platform primitive: `socket.close(code, reason)` throws
`InvalidAccessError` unless the code is 1000 or in 3000-4999. -/
def closePrim (code : Nat) : Except String Unit :=
  if code = 1000 ∨ (3000 ≤ code ∧ code ≤ 4999) then .ok () else .error "InvalidAccessError"

/-! ## Connection lifecycle -/

/-- `connectWebSocket` (src lines 70-158).  The whole body is one
`try/catch`.  `createOutcome` models `new WebSocket(this.wsUrl)`: `.ok`
when construction succeeds (the socket starts in `CONNECTING`), `.error`
when the constructor throws (e.g. an unparseable derived URL).
`socket.close()` without arguments (src line 74) cannot throw, so the
pre-close is hoisted out of `catchE`; at any throw point the old socket
has already been closed and nulled.  The catch block (src lines 153-157)
emits the error and calls `scheduleReconnect`. -/
def connectWebSocket (createOutcome : Except String Unit) (st : SvcState) :
    Except String (SvcState × List Effect) :=
  let closed :=
    match st.socket with
    | some _ => ({ st with socket := none }, [Effect.closeSocket none none])
    | none => (st, ([] : List Effect))
  let st1 := closed.1
  let res :=
    catchE
      (match createOutcome with
       | .error e => .error e
       | .ok _ =>
         .ok ({ st1 with socket := some ⟨ReadyState.connecting, st1.wsUrl⟩ },
              [Effect.newSocket st1.wsUrl]))
      (fun e =>
        let sched := scheduleReconnect st1
        (sched.1, [Effect.emitEv "error" (.jsErr e)] ++ sched.2))
  match res with
  | .ok (st2, effs) => .ok (st2, closed.2 ++ effs)
  | .error e => .error e

/-- `connect` (src lines 56-68): a no-op when the socket is already
`OPEN`; otherwise store the converted URL and (re)connect. -/
def connect (createOutcome : Except String Unit) (backendUrl : String) (st : SvcState) :
    Except String (SvcState × List Effect) :=
  if isConnected st then .ok (st, [])
  else
    connectWebSocket createOutcome { st with wsUrl := convertToWebSocketUrl backendUrl }

/-- The `ws.onopen` handler (src lines 81-92): zero the attempt counter,
clear any pending reconnect timer, emit `connected(true)`. -/
def onopen (st : SvcState) : SvcState × List Effect :=
  let st1 := { st with reconnectAttempts := 0 }
  let cleared :=
    if st1.reconnectTimeout then ({ st1 with reconnectTimeout := false }, [Effect.clearTimer])
    else (st1, ([] : List Effect))
  (cleared.1, cleared.2 ++ [Effect.emitEv "connected" (.bool true)])

/-- The `switch (message.type)` dispatch inside `ws.onmessage`
(src lines 98-133); the default branch only logs. -/
def dispatchMessage (message : JsValue) : List Effect :=
  match getProp message "type" with
  | .str "car_status" =>
    [Effect.emitEv "status" (getProp message "data")]
  | .str "car_ack" =>
    [Effect.emitEv "acknowledgment"
      (.obj [("command", getProp message "command"), ("status", getProp message "status")])]
  | .str "car_connected" =>
    [Effect.emitEv "device_connected"
      (.obj [("device", getProp message "device"), ("status", getProp message "status")])]
  | .str "car_disconnected" =>
    [Effect.emitEv "device_disconnected" (.bool true)]
  | .str "error" =>
    [Effect.emitEv "error" (getProp message "message")]
  | _ => []

/-- The `ws.onmessage` handler (src lines 94-137): `parseOutcome` models
`JSON.parse(event.data)` (`.error` = malformed frame); the surrounding
`try/catch` only logs on failure, so a malformed frame produces no
effect. -/
def onmessage (parseOutcome : Except String JsValue) (st : SvcState) : SvcState × List Effect :=
  match parseOutcome with
  | .ok message => (st, dispatchMessage message)
  | .error _ => (st, [])

/-- The `ws.onerror` handler (src lines 139-142): republish the error
event object. -/
def onerror (st : SvcState) : SvcState × List Effect :=
  (st, [Effect.emitEv "error" (.jsErr "websocket error event")])

/-- The `ws.onclose` handler (src lines 144-152): emit
`connected(false)`, and schedule a reconnect unless the close was the
normal closure 1000. -/
def onclose (code : Nat) (st : SvcState) : SvcState × List Effect :=
  let effs := [Effect.emitEv "connected" (.bool false)]
  if code ≠ 1000 then
    let sched := scheduleReconnect st
    (sched.1, effs ++ sched.2)
  else
    (st, effs)

/-! ## Sending -/

/-- The five command names of `CarCommand['command']`. -/
inductive Command where
  | forward
  | backward
  | left
  | right
  | stop
deriving DecidableEq, Repr

/-- The wire spelling of a command. -/
def Command.str : Command → String
  | .forward => "forward"
  | .backward => "backward"
  | .left => "left"
  | .right => "right"
  | .stop => "stop"

/-- The outbound `CarCommand` object `{command, speed, timestamp}`
(src lines 189-193); `now` models `Date.now()`. -/
def mkCarCommand (command : Command) (speed : Int) (now : Int) : JsValue :=
  .obj [("command", .str command.str), ("speed", .num speed), ("timestamp", .num now)]

/-- `sendCommand` (src lines 183-204): fail fast when not connected;
otherwise build the message and send it inside `try/catch`, emitting an
`error` event and returning `false` if the send throws.
`this.socket?.send(...)` is optional chaining: with a null socket the
call is skipped entirely (that branch is unreachable under the
`isConnected` guard). -/
def sendCommand (st : SvcState) (command : Command) (speed : Int) (now : Int) :
    Except String (SvcState × List Effect × Bool) :=
  if !isConnected st then .ok (st, [], false)
  else
    let message := mkCarCommand command speed now
    catchE
      (match st.socket with
       | some sock =>
         match sendPrim sock with
         | .ok _ => .ok (st, [Effect.wireSend message], true)
         | .error e => .error e
       | none => .ok (st, [], true))
      (fun e => (st, [Effect.emitEv "error" (.jsErr e)], false))

/-- `disconnect` (src lines 246-262): only when a socket reference is
present, clear the pending reconnect timer and close with the normal
code 1000; in every case clear all listeners and zero the attempt
counter.  `closePrim 1000` is the only potentially-throwing call. -/
def disconnect (st : SvcState) : Except String (SvcState × List Effect) :=
  match st.socket with
  | some _ =>
    let cleared :=
      if st.reconnectTimeout then ({ st with reconnectTimeout := false }, [Effect.clearTimer])
      else (st, ([] : List Effect))
    match closePrim 1000 with
    | .ok _ =>
      .ok ({ cleared.1 with socket := none, listeners := [], reconnectAttempts := 0 },
           cleared.2 ++ [Effect.closeSocket (some 1000) (some "Manual disconnect")])
    | .error e => .error e
  | none =>
    .ok ({ st with listeners := [], reconnectAttempts := 0 }, [])

/-! ## Driver: the service under its event loop

The platform around the service: socket events update `readyState`
before the corresponding handler runs, and a single cooperative timer
queue arms on `setTimer`, disarms on `clearTimer`, and runs
`connectWebSocket` when the armed reconnect timer fires (src line
175-177).  `armed` is the platform's view; the service's stale
`reconnectTimeout` handle field is deliberately not reset when the timer
fires, as in the source. -/

/-- Set the ready state of the owned socket, when there is one. -/
def setReady (rs : ReadyState) (st : SvcState) : SvcState :=
  { st with socket := st.socket.map (fun s => { s with readyState := rs }) }

/-- Service state plus the platform's timer state. -/
structure World where
  svc : SvcState
  armed : Bool

/-- Fold timer effects into the platform's armed flag. -/
def applyTimers (armed : Bool) (effs : List Effect) : Bool :=
  effs.foldl
    (fun a e =>
      match e with
      | .setTimer _ => true
      | .clearTimer => false
      | _ => a)
    armed

/-- An event-loop occurrence driven against the service. -/
inductive Evt where
  | openEv
  | messageEv (parseOutcome : Except String JsValue)
  | errorEv
  | closeEv (code : Nat)
  | timerFire (createOutcome : Except String Unit)
  | apiConnect (createOutcome : Except String Unit) (backendUrl : String)
  | apiDisconnect

/-- One event-loop step.  Socket events only fire while a socket exists;
the reconnect timer only fires while armed, and firing disarms it. -/
def step (w : World) (e : Evt) : World × List Effect :=
  match e with
  | .openEv =>
    match w.svc.socket with
    | some _ =>
      let r := onopen (setReady ReadyState.opened w.svc)
      (⟨r.1, applyTimers w.armed r.2⟩, r.2)
    | none => (w, [])
  | .messageEv p =>
    match w.svc.socket with
    | some _ =>
      let r := onmessage p w.svc
      (⟨r.1, applyTimers w.armed r.2⟩, r.2)
    | none => (w, [])
  | .errorEv =>
    match w.svc.socket with
    | some _ =>
      let r := onerror w.svc
      (⟨r.1, applyTimers w.armed r.2⟩, r.2)
    | none => (w, [])
  | .closeEv code =>
    match w.svc.socket with
    | some _ =>
      let r := onclose code (setReady ReadyState.closed w.svc)
      (⟨r.1, applyTimers w.armed r.2⟩, r.2)
    | none => (w, [])
  | .timerFire createOutcome =>
    if w.armed then
      match connectWebSocket createOutcome w.svc with
      | .ok r => (⟨r.1, applyTimers false r.2⟩, r.2)
      | .error _ => (w, [])
    else (w, [])
  | .apiConnect createOutcome url =>
    match connect createOutcome url w.svc with
    | .ok r => (⟨r.1, applyTimers w.armed r.2⟩, r.2)
    | .error _ => (w, [])
  | .apiDisconnect =>
    match disconnect w.svc with
    | .ok r => (⟨r.1, applyTimers w.armed r.2⟩, r.2)
    | .error _ => (w, [])

/-- Run a list of events, accumulating effects. -/
def run (w : World) : List Evt → World × List Effect
  | [] => (w, [])
  | e :: rest =>
    let r := step w e
    let r2 := run r.1 rest
    (r2.1, r.2 ++ r2.2)

/-- Number of reconnect attempts scheduled in a trace. -/
def countSetTimers (effs : List Effect) : Nat :=
  effs.countP (fun e => match e with | .setTimer _ => true | _ => false)

/-- Number of times a given event name was emitted with an `Error`
carrying the given message. -/
def countErrEmits (msg : String) (effs : List Effect) : Nat :=
  effs.countP (fun e => match e with | .emitEv "error" (.jsErr m) => m = msg | _ => false)

/-- Number of sockets created in a trace. -/
def countNewSockets (effs : List Effect) : Nat :=
  effs.countP (fun e => match e with | .newSocket _ => true | _ => false)

/-- Number of wire writes in a trace. -/
def countWireSends (effs : List Effect) : Nat :=
  effs.countP (fun e => match e with | .wireSend _ => true | _ => false)

/-! ## The four public methods whose bodies contain no throwing
primitive, viewed in the throwing monad (`on`, `off`, `isConnected`,
`resetReconnectAttempts` perform only `Map`, array and field
operations). -/

/-- `on`, in the throwing monad. -/
def onEventE (st : SvcState) (event : String) (callback : Nat) : Except String SvcState :=
  .ok (onEvent st event callback)

/-- `off`, in the throwing monad. -/
def offE (st : SvcState) (event : String) (callback : Option Nat) : Except String SvcState :=
  .ok (off st event callback)

/-- `isConnected`, in the throwing monad. -/
def isConnectedE (st : SvcState) : Except String Bool :=
  .ok (isConnected st)

/-- `resetReconnectAttempts`, in the throwing monad. -/
def resetReconnectAttemptsE (st : SvcState) : Except String SvcState :=
  .ok (resetReconnectAttempts st)

/-! ## The in-repo caller's speed state

`src/app/index.tsx` is the only caller of `sendCommand`; it always
passes its `motorSpeed` React state, initialized to 200 and updated in
exactly three places, each of which clamps to [0, 255]:
`setMotorSpeed(Math.max(0, motorSpeed - 25))`,
`setMotorSpeed(Math.min(255, motorSpeed + 25))`, and
`setMotorSpeed(Math.max(0, Math.min(255, parseInt(text) || 0)))` (the
`|| 0` fallback for a non-numeric field is `.input none`). -/

/-- The three UI updates of `motorSpeed`. -/
inductive SpeedUpdate where
  | dec
  | inc
  | input (t : Option Int)

/-- One `setMotorSpeed` call. -/
def applySpeedUpdate (s : Int) : SpeedUpdate → Int
  | .dec => max 0 (s - 25)
  | .inc => min 255 (s + 25)
  | .input t => max 0 (min 255 (t.getD 0))

/-- The value of `motorSpeed` after a sequence of UI updates
(`useState(200)` start). -/
def motorSpeedAfter (us : List SpeedUpdate) : Int :=
  us.foldl applySpeedUpdate 200

/-! ## Concrete scenario traces -/

/-- A reconnect-timer expiry whose `new WebSocket` fails (unreachable
constructions keep the socket unconnectable, e.g. a malformed host). -/
def failFire : Evt :=
  Evt.timerFire (Except.error "ECONNREFUSED")

/-- Scenario for the reconnect budget: a successful connect and open,
one abnormal close (1006), then the armed reconnect timer keeps firing
with socket construction failing each time. -/
def c1Trace : List Evt :=
  [Evt.apiConnect (Except.ok ()) "http://h:81", Evt.openEv, Evt.closeEv 1006,
   failFire, failFire, failFire, failFire, failFire, failFire]

/-- Scenario for manual disconnect after a failed construction: the
first `connect` throws inside `connectWebSocket` (e.g. derived URL with
a malformed host), which leaves `socket = null` with a reconnect timer
armed; then the caller invokes `disconnect()`. -/
def c4Trace : List Evt :=
  [Evt.apiConnect (Except.error "SyntaxError") "http://bad host", Evt.apiDisconnect]


/-! ## Helper lemmas -/

theorem sendCommand_not_open (st : SvcState) (cmd : Command) (sp now : Int)
    (h : isConnected st = false) :
    sendCommand st cmd sp now = .ok (st, [], false) := by
  simp [sendCommand, h]

theorem sendCommand_open (st : SvcState) (cmd : Command) (sp now : Int)
    (h : isConnected st = true) :
    sendCommand st cmd sp now =
      .ok (st, [Effect.wireSend (mkCarCommand cmd sp now)], true) := by
  match hs : st.socket with
  | none => simp [isConnected, hs] at h
  | some sock =>
    have hrs : sock.readyState = ReadyState.opened := by
      simpa [isConnected, hs] using h
    simp [sendCommand, isConnected, hs, hrs, sendPrim, catchE]

theorem connectWebSocket_isOk (o : Except String Unit) (st : SvcState) :
    isOkB (connectWebSocket o st) = true := by
  cases hs : st.socket <;> cases o <;> simp [connectWebSocket, catchE, hs, isOkB]

/-! ### `Map` lemmas -/

theorem mapGet_mapSet_self (m : List (String × List Nat)) (k : String) (v : List Nat) :
    mapGet (mapSet m k v) k = some v := by
  induction m with
  | nil => simp [mapSet, mapGet]
  | cons kv rest ih =>
    obtain ⟨a, b⟩ := kv
    by_cases h : a = k
    · simp [mapSet, mapGet, h]
    · simp [mapSet, mapGet, h, ih]

theorem mapGet_mapSet_ne (m : List (String × List Nat)) (k k' : String) (v : List Nat)
    (h : k' ≠ k) :
    mapGet (mapSet m k v) k' = mapGet m k' := by
  have hne : ¬k = k' := fun he => h he.symm
  induction m with
  | nil => simp [mapSet, mapGet, hne]
  | cons kv rest ih =>
    obtain ⟨a, b⟩ := kv
    by_cases ha : a = k
    · subst ha
      simp [mapSet, mapGet, hne]
    · by_cases ha' : a = k' <;> simp [mapSet, mapGet, ha, ha', h, ih]

theorem mapGet_mapUpdate_self (m : List (String × List Nat)) (k : String)
    (f : List Nat → List Nat) :
    mapGet (mapUpdate m k f) k = (mapGet m k).map f := by
  induction m with
  | nil => simp [mapUpdate, mapGet]
  | cons kv rest ih =>
    obtain ⟨a, b⟩ := kv
    by_cases h : a = k
    · simp [mapUpdate, mapGet, h]
    · simp [mapUpdate, mapGet, h, ih]

theorem mapGet_mapUpdate_ne (m : List (String × List Nat)) (k k' : String)
    (f : List Nat → List Nat) (h : k' ≠ k) :
    mapGet (mapUpdate m k f) k' = mapGet m k' := by
  have hne : ¬k = k' := fun he => h he.symm
  induction m with
  | nil => simp [mapUpdate, mapGet]
  | cons kv rest ih =>
    obtain ⟨a, b⟩ := kv
    by_cases ha : a = k
    · subst ha
      simp [mapUpdate, mapGet, hne]
    · by_cases ha' : a = k' <;> simp [mapUpdate, mapGet, ha, ha', h, ih]

theorem mapGet_mapDelete_ne (m : List (String × List Nat)) (k k' : String) (h : k' ≠ k) :
    mapGet (mapDelete m k) k' = mapGet m k' := by
  have hne : ¬k = k' := fun he => h he.symm
  induction m with
  | nil => simp [mapDelete, mapGet]
  | cons kv rest ih =>
    obtain ⟨a, b⟩ := kv
    by_cases ha : a = k
    · subst ha
      simp [mapDelete, mapGet, hne]
    · by_cases ha' : a = k' <;> simp [mapDelete, mapGet, ha, ha', h, ih]

theorem mapGet_eq_none_of_not_mem_keys (m : List (String × List Nat)) (k : String)
    (h : k ∉ m.map Prod.fst) :
    mapGet m k = none := by
  induction m with
  | nil => simp [mapGet]
  | cons kv rest ih =>
    obtain ⟨a, b⟩ := kv
    simp only [List.map_cons, List.mem_cons, not_or] at h
    have ha : ¬a = k := fun he => h.1 he.symm
    simp [mapGet, ha, ih h.2]

theorem mapGet_mapDelete_self (m : List (String × List Nat)) (k : String)
    (hnd : (m.map Prod.fst).Nodup) :
    mapGet (mapDelete m k) k = none := by
  induction m with
  | nil => simp [mapDelete, mapGet]
  | cons kv rest ih =>
    obtain ⟨a, b⟩ := kv
    simp only [List.map_cons, List.nodup_cons] at hnd
    by_cases ha : a = k
    · subst ha
      simpa [mapDelete] using mapGet_eq_none_of_not_mem_keys rest a hnd.1
    · simp [mapDelete, mapGet, ha, ih hnd.2]

theorem mapGet_isSome_of_mapHas (m : List (String × List Nat)) (k : String) :
    mapHas m k = (mapGet m k).isSome := by
  induction m with
  | nil => simp [mapHas, mapGet]
  | cons kv rest ih =>
    obtain ⟨a, b⟩ := kv
    by_cases h : a = k <;> simp [mapHas, mapGet, h, ← ih]

theorem onEvent_lookup (st : SvcState) (k : String) (cb : Nat) :
    mapGet (onEvent st k cb).listeners k = some (((mapGet st.listeners k).getD []) ++ [cb]) := by
  unfold onEvent
  by_cases h : mapHas st.listeners k = true
  · rw [mapGet_isSome_of_mapHas] at h
    match hg : mapGet st.listeners k with
    | none => rw [hg] at h; simp at h
    | some l => simp [h, mapGet_isSome_of_mapHas, hg, mapGet_mapUpdate_self]
  · have hg : mapGet st.listeners k = none := by
      rw [mapGet_isSome_of_mapHas] at h
      exact Option.not_isSome_iff_eq_none.mp (by simpa using h)
    simp [h, hg, mapGet_mapUpdate_self, mapGet_mapSet_self]

theorem onEvent_lookup_ne (st : SvcState) (k k' : String) (cb : Nat) (h : k' ≠ k) :
    mapGet (onEvent st k cb).listeners k' = mapGet st.listeners k' := by
  unfold onEvent
  by_cases hh : mapHas st.listeners k = true <;>
    simp [hh, mapGet_mapUpdate_ne _ _ _ _ h, mapGet_mapSet_ne _ _ _ _ h]

theorem spliceFirst_append_right (l r : List Nat) (cb : Nat) (h : cb ∉ l) :
    spliceFirst (l ++ r) cb = l ++ spliceFirst r cb := by
  induction l with
  | nil => simp
  | cons c rest ih =>
    have hc : c ≠ cb := fun he => h (he ▸ List.mem_cons_self _ _)
    simp only [List.cons_append, spliceFirst, hc, if_neg hc]
    exact congrArg (c :: ·) (ih (fun hm => h (List.mem_cons_of_mem _ hm)))

theorem spliceFirst_eq_erase (l : List Nat) (cb : Nat) :
    spliceFirst l cb = l.erase cb := by
  induction l with
  | nil => rfl
  | cons c rest ih =>
    by_cases h : c = cb
    · simp [spliceFirst, h, List.erase_cons_head]
    · simp [spliceFirst, h, List.erase_cons_tail, ih, beq_iff_eq]

/-! ### Character-class and scanning lemmas for the URL proofs -/

theorem takeWhile_append_all (P : Char → Bool) (l r : List Char)
    (h : ∀ c ∈ l, P c = true) :
    (l ++ r).takeWhile P = l ++ r.takeWhile P := by
  induction l with
  | nil => simp
  | cons a t ih =>
    have ha := h a (List.mem_cons_self a t)
    simp [List.takeWhile_cons, ha, ih (fun c hc => h c (List.mem_cons_of_mem a hc))]

theorem dropWhile_append_all (P : Char → Bool) (l r : List Char)
    (h : ∀ c ∈ l, P c = true) :
    (l ++ r).dropWhile P = r.dropWhile P := by
  induction l with
  | nil => simp
  | cons a t ih =>
    have ha := h a (List.mem_cons_self a t)
    simp [List.dropWhile_cons, ha, ih (fun c hc => h c (List.mem_cons_of_mem a hc))]

theorem map_id_of_fix (f : Char → Char) (l : List Char) (h : ∀ c ∈ l, f c = c) :
    l.map f = l := by
  induction l with
  | nil => rfl
  | cons a t ih =>
    simp [h a (List.mem_cons_self a t), ih (fun c hc => h c (List.mem_cons_of_mem a hc))]

/-- A host of lower-case letters, digits, dots and dashes (the shape of
every ordinary hostname, written as the caller would write it). -/
def SimpleHostChar (c : Char) : Bool :=
  isLowerCh c || isDigitCh c || c = '.' || c = '-'

/-- A nonempty simple host string. -/
def SimpleHost (h : String) : Bool :=
  !h.data.isEmpty && h.data.all SimpleHostChar

/-- A nonempty all-digit port string whose value fits in 16 bits. -/
def PortStr (p : String) : Bool :=
  !p.data.isEmpty && p.data.all isDigitCh && digitsToNat p.data ≤ 65535

theorem isLowerCh_props (c : Char) (h : isLowerCh c = true) :
    c ≠ ':' ∧ isAlphaCh c = true ∧ isSchemeChar c = true ∧
      asciiLower c = c ∧ SimpleHostChar c = true := by
  have hn : 97 ≤ c.toNat ∧ c.toNat ≤ 122 := by simpa [isLowerCh] using h
  have hup : isUpperCh c = false := by
    cases hu : isUpperCh c with
    | false => rfl
    | true =>
      have h2 : 65 ≤ c.toNat ∧ c.toNat ≤ 90 := by simpa [isUpperCh] using hu
      exact absurd h2 (by omega)
  refine ⟨fun he => ?_, ?_, ?_, ?_, ?_⟩
  · rw [he] at hn; exact absurd hn (by decide)
  · simp [isAlphaCh, h]
  · simp [isSchemeChar, isAlphaCh, h]
  · simp [asciiLower, hup]
  · simp [SimpleHostChar, h]

theorem isDigitCh_props (c : Char) (h : isDigitCh c = true) :
    c ≠ ':' ∧ isAuthorityEnd c = false ∧ isSlash c = false ∧ SimpleHostChar c = true := by
  have hn : 48 ≤ c.toNat ∧ c.toNat ≤ 57 := by simpa [isDigitCh] using h
  refine ⟨fun he => ?_, ?_, ?_, ?_⟩
  · rw [he] at hn; exact absurd hn (by decide)
  · cases hae : isAuthorityEnd c with
    | false => rfl
    | true =>
      have : c = '/' ∨ c = '?' ∨ c = '#' := by simpa [isAuthorityEnd, or_assoc] using hae
      rcases this with he | he | he <;> (rw [he] at hn; exact absurd hn (by decide))
  · cases hsl : isSlash c with
    | false => rfl
    | true =>
      have : c = '/' ∨ c = '\\' := by simpa [isSlash] using hsl
      rcases this with he | he <;> (rw [he] at hn; exact absurd hn (by decide))
  · simp [SimpleHostChar, isDigitCh, hn.1, hn.2]

theorem simpleHostChar_props (c : Char) (h : SimpleHostChar c = true) :
    c ≠ ':' ∧ isAuthorityEnd c = false ∧ isSlash c = false ∧ asciiLower c = c := by
  have hn : isLowerCh c = true ∨ isDigitCh c = true ∨ c = '.' ∨ c = '-' := by
    simpa [SimpleHostChar, or_assoc] using h
  rcases hn with h1 | h1 | h1 | h1
  · obtain ⟨hc, _, _, hfix, _⟩ := isLowerCh_props c h1
    have hrange : 97 ≤ c.toNat ∧ c.toNat ≤ 122 := by simpa [isLowerCh] using h1
    refine ⟨hc, ?_, ?_, hfix⟩
    · cases hae : isAuthorityEnd c with
      | false => rfl
      | true =>
        have : c = '/' ∨ c = '?' ∨ c = '#' := by simpa [isAuthorityEnd, or_assoc] using hae
        rcases this with he | he | he <;> (rw [he] at hrange; exact absurd hrange (by decide))
    · cases hsl : isSlash c with
      | false => rfl
      | true =>
        have : c = '/' ∨ c = '\\' := by simpa [isSlash] using hsl
        rcases this with he | he <;> (rw [he] at hrange; exact absurd hrange (by decide))
  · obtain ⟨hc, hae, hsl, _⟩ := isDigitCh_props c h1
    have hrange : 48 ≤ c.toNat ∧ c.toNat ≤ 57 := by simpa [isDigitCh] using h1
    have hup : isUpperCh c = false := by
      cases hu : isUpperCh c with
      | false => rfl
      | true =>
        have h2 : 65 ≤ c.toNat ∧ c.toNat ≤ 90 := by simpa [isUpperCh] using hu
        exact absurd h2 (by omega)
    exact ⟨hc, hae, hsl, by simp [asciiLower, hup]⟩
  · subst h1; exact ⟨by decide, by decide, by decide, by decide⟩
  · subst h1; exact ⟨by decide, by decide, by decide, by decide⟩

theorem simpleHost_spec (h : String) (hh : SimpleHost h = true) :
    h.data ≠ [] ∧ ∀ c ∈ h.data, SimpleHostChar c = true := by
  have := by simpa [SimpleHost, List.all_eq_true] using hh
  exact ⟨by simpa [List.isEmpty_iff] using this.1, this.2⟩

theorem portStr_spec (p : String) (hp : PortStr p = true) :
    p.data ≠ [] ∧ (∀ c ∈ p.data, isDigitCh c = true) ∧ digitsToNat p.data ≤ 65535 := by
  have := by simpa [PortStr, List.all_eq_true] using hp
  exact ⟨by simpa [List.isEmpty_iff] using this.1.1, this.1.2, this.2⟩

/-! ### Behaviour of the URL parser on the shapes of the claim -/

theorem takeScheme_prefix (sch : String) (rest : List Char)
    (h1 : sch.data ≠ []) (h2 : ∀ c ∈ sch.data, isLowerCh c = true) :
    takeScheme (sch.data ++ ':' :: rest) = some (sch, rest) := by
  have hno : ∀ c ∈ sch.data, notColon c = true := by
    intro c hc
    simpa [notColon] using (isLowerCh_props c (h2 c hc)).1
  have hcolon : notColon ':' = false := by decide
  unfold takeScheme
  rw [takeWhile_append_all _ _ _ hno, dropWhile_append_all _ _ _ hno]
  have hv : validScheme sch.data = true := by
    obtain ⟨a, t, hat⟩ := List.exists_cons_of_ne_nil h1
    rw [hat] at h2 ⊢
    have ha := (isLowerCh_props a (h2 a (List.mem_cons_self a t))).2.1
    have ht : ∀ c ∈ t, isSchemeChar c = true := fun c hc =>
      (isLowerCh_props c (h2 c (List.mem_cons_of_mem a hc))).2.2.1
    simp only [validScheme, ha, Bool.true_and, List.all_eq_true]
    exact ht
  have hmap : sch.data.map asciiLower = sch.data :=
    map_id_of_fix _ _ (fun c hc => (isLowerCh_props c (h2 c hc)).2.2.2.1)
  simp [List.takeWhile_cons, List.dropWhile_cons, hcolon, hv, hmap]

theorem parseAuthority_hostport (sch : String) (h p : String)
    (hh : SimpleHost h = true) (hp : PortStr p = true) :
    parseAuthority sch (h.data ++ ':' :: p.data) =
      some ⟨sch, h, if defaultPort sch = some (digitsToNat p.data) then none
                    else some (digitsToNat p.data)⟩ := by
  obtain ⟨hh1, hh2⟩ := simpleHost_spec h hh
  obtain ⟨hp1, hp2, hp3⟩ := portStr_spec p hp
  have hallAuth : ∀ c ∈ (h.data ++ ':' :: p.data), notAuthEnd c = true := by
    intro c hc
    rcases List.mem_append.mp hc with hc | hc
    · simp [notAuthEnd, (simpleHostChar_props c (hh2 c hc)).2.1]
    · rcases List.mem_cons.mp hc with hc | hc
      · subst hc; decide
      · simp [notAuthEnd, (isDigitCh_props c (hp2 c hc)).2.1]
  have hhostNoColon : ∀ c ∈ h.data, notColon c = true := by
    intro c hc
    simpa [notColon] using (simpleHostChar_props c (hh2 c hc)).1
  have hcolon : notColon ':' = false := by decide
  have e1 : (h.data ++ ':' :: p.data).takeWhile notAuthEnd =
      h.data ++ ':' :: p.data := List.takeWhile_eq_self_iff.mpr hallAuth
  have e2 : (h.data ++ ':' :: p.data).takeWhile notColon = h.data := by
    rw [takeWhile_append_all _ _ _ hhostNoColon]
    simp [List.takeWhile_cons, hcolon]
  have e3 : (h.data ++ ':' :: p.data).dropWhile notColon = ':' :: p.data := by
    rw [dropWhile_append_all _ _ _ hhostNoColon]
    simp [List.dropWhile_cons, hcolon]
  have hpempty : p.data.isEmpty = false := by
    cases hd : p.data with
    | nil => exact absurd hd hp1
    | cons a t => rfl
  have hpdigits : p.data.all isDigitCh = true := List.all_eq_true.mpr hp2
  have hmk : String.mk h.data = h := rfl
  by_cases hdp : defaultPort sch = some (digitsToNat p.data) <;>
    simp [parseAuthority, e1, e2, e3, parsePort, hpempty, hpdigits, hp3, hdp, hmk]

theorem parseURL_special (s sch h p : String)
    (hdata : s.data = sch.data ++ ':' :: '/' :: '/' :: (h.data ++ ':' :: p.data))
    (hsch1 : sch.data ≠ []) (hsch2 : ∀ c ∈ sch.data, isLowerCh c = true)
    (hspec : isSpecialScheme sch = true)
    (hh : SimpleHost h = true) (hp : PortStr p = true) :
    parseURL s =
      some ⟨sch, h, if defaultPort sch = some (digitsToNat p.data) then none
                    else some (digitsToNat p.data)⟩ := by
  obtain ⟨hh1, hh2⟩ := simpleHost_spec h hh
  have hdrop : List.dropWhile isSlash ('/' :: '/' :: (h.data ++ ':' :: p.data)) =
      h.data ++ ':' :: p.data := by
    obtain ⟨a, t, hat⟩ := List.exists_cons_of_ne_nil hh1
    have ha := (simpleHostChar_props a (hh2 a (hat ▸ List.mem_cons_self a t))).2.2.1
    have hsl : isSlash '/' = true := by decide
    rw [hat]
    simp [List.dropWhile_cons, hsl, ha]
  have hne : ¬(h = "") := fun he => hh1 (by rw [he])
  have hmap : String.mk (h.data.map asciiLower) = h := by
    rw [map_id_of_fix _ _ (fun c hc => (simpleHostChar_props c (hh2 c hc)).2.2.2)]
  unfold parseURL
  rw [hdata, takeScheme_prefix sch _ hsch1 hsch2]
  simp only [hspec, if_true]
  rw [hdrop, parseAuthority_hostport sch h p hh hp]
  simp [hne, hmap]

theorem data_lit_ws : "ws".data = ['w', 's'] := rfl

theorem data_lit_colon : ":".data = [':'] := rfl

theorem data_lit_sep : "://".data = [':', '/', '/'] := rfl

theorem data_lit_slashws : "/ws".data = ['/', 'w', 's'] := rfl

theorem data_lit_wss : "wss".data = ['w', 's', 's'] := rfl

theorem data_lit_http : "http".data = ['h', 't', 't', 'p'] := rfl

theorem data_lit_https : "https".data = ['h', 't', 't', 'p', 's'] := rfl

theorem data_lit_httpp : "http://".data = ['h', 't', 't', 'p', ':', '/', '/'] := rfl

theorem data_lit_httpsp : "https://".data = ['h', 't', 't', 'p', 's', ':', '/', '/'] := rfl

theorem data_lit_wsp : "ws://".data = ['w', 's', ':', '/', '/'] := rfl

theorem data_lit_wssp : "wss://".data = ['w', 's', 's', ':', '/', '/'] := rfl

theorem parseURL_bare_digit (s h p : String)
    (hdata : s.data = h.data ++ ':' :: p.data)
    (hh2 : ∀ x ∈ h.data, SimpleHostChar x = true)
    (c : Char) (t : List Char) (hct : h.data = c :: t) (hdig : isDigitCh c = true) :
    parseURL s = none := by
  have hno : ∀ x ∈ h.data, notColon x = true := fun x hx => by
    simpa [notColon] using (simpleHostChar_props x (hh2 x hx)).1
  have hv : validScheme h.data = false := by
    rw [hct]
    have halpha : isAlphaCh c = false := by
      cases ha : isAlphaCh c with
      | false => rfl
      | true =>
        have hr : (97 ≤ c.toNat ∧ c.toNat ≤ 122) ∨ (65 ≤ c.toNat ∧ c.toNat ≤ 90) := by
          simpa [isAlphaCh, isLowerCh, isUpperCh] using ha
        have hd : 48 ≤ c.toNat ∧ c.toNat ≤ 57 := by simpa [isDigitCh] using hdig
        exact absurd hd (by omega)
    simp [validScheme, halpha]
  have hcolon : notColon ':' = false := by decide
  unfold parseURL takeScheme
  rw [hdata, takeWhile_append_all _ _ _ hno, dropWhile_append_all _ _ _ hno]
  simp [List.takeWhile_cons, List.dropWhile_cons, hcolon, hv]

theorem parseURL_opaque (s h p : String)
    (hdata : s.data = h.data ++ ':' :: p.data)
    (hsch1 : h.data ≠ []) (hsch2 : ∀ x ∈ h.data, isLowerCh x = true)
    (hspec : isSpecialScheme h = false)
    (c : Char) (t : List Char) (hct : p.data = c :: t) (hdig : isDigitCh c = true) :
    parseURL s = some ⟨h, "", none⟩ := by
  unfold parseURL
  rw [hdata, takeScheme_prefix h _ hsch1 hsch2]
  simp only [hspec, Bool.false_eq_true, if_false]
  rw [hct]
  have hc : c ≠ '/' := by
    intro he; rw [he] at hdig; exact absurd hdig (by decide)
  split
  · rename_i tail heq
    exact absurd heq (by simp [hc])
  · rfl

theorem strHasPre_false_head (pre s : String) (a c : Char) (l t : List Char)
    (hpre : pre.data = a :: l) (hs : s.data = c :: t) (hne : a ≠ c) :
    strHasPre pre s = false := by
  simp [strHasPre, hpre, hs, List.isPrefixOf, beq_eq_false_iff_ne, hne]

/-! ## Claims -/

/-- C2 counterexample.  Three documented normalizations fail on the
code: a parseable `wss://h:81` is DOWNGRADED to `ws://h:81/ws` (line 36
maps only `https:` to `wss:`, everything else to `ws:`); a bare `h:81`
parses as a URL with scheme `h` and empty host (as `new URL` does), so
it becomes `ws:///ws` rather than `ws://h:81/ws`; and `http://h:80`
loses its default port (`url.host` elides it), giving `ws://h/ws` rather
than `ws://h:80/ws`. -/
theorem c2_url_counterexample :
    convertToWebSocketUrl "wss://h:81" = "ws://h:81/ws" ∧
    convertToWebSocketUrl "wss://h:81" ≠ "wss://h:81/ws" ∧
    convertToWebSocketUrl "h:81" = "ws:///ws" ∧
    convertToWebSocketUrl "h:81" ≠ "ws://h:81/ws" ∧
    convertToWebSocketUrl "http://h:80" = "ws://h/ws" ∧
    convertToWebSocketUrl "http://h:80" ≠ "ws://h:80/ws" := by
  refine ⟨by decide, by decide, by decide, by decide, by decide, by decide⟩

/-- C2 as amended.  For a simple host `h` and numeric port `p` (value
`n`): `http://h:p` → `ws://h:p/ws` and `https://h:p` → `wss://h:p/ws`
except that a default port (80 resp. 443) is elided; `ws://h:p` →
`ws://h:p/ws` (80 elided); `wss://h:p` is DOWNGRADED to `ws://h:p/ws`
(443 elided).  A bare `h:p` wraps as `ws://h:p/ws` only when `h` cannot
begin a URL scheme (e.g. starts with a digit, as in a numeric IP); an
all-letter non-special `h` parses as a scheme, yielding `ws:///ws`.  An
unparseable `ws(s)://…` input already ending in `/ws` is passed through
unchanged (not double-suffixed). -/
theorem c2_url_normalization_amended (h p : String)
    (hh : SimpleHost h = true) (hp : PortStr p = true) :
    (convertToWebSocketUrl ("http://" ++ h ++ ":" ++ p) =
      if digitsToNat p.data = 80 then "ws://" ++ h ++ "/ws"
      else "ws://" ++ h ++ ":" ++ toString (digitsToNat p.data) ++ "/ws") ∧
    (convertToWebSocketUrl ("https://" ++ h ++ ":" ++ p) =
      if digitsToNat p.data = 443 then "wss://" ++ h ++ "/ws"
      else "wss://" ++ h ++ ":" ++ toString (digitsToNat p.data) ++ "/ws") ∧
    (convertToWebSocketUrl ("ws://" ++ h ++ ":" ++ p) =
      if digitsToNat p.data = 80 then "ws://" ++ h ++ "/ws"
      else "ws://" ++ h ++ ":" ++ toString (digitsToNat p.data) ++ "/ws") ∧
    (convertToWebSocketUrl ("wss://" ++ h ++ ":" ++ p) =
      if digitsToNat p.data = 443 then "ws://" ++ h ++ "/ws"
      else "ws://" ++ h ++ ":" ++ toString (digitsToNat p.data) ++ "/ws") ∧
    (∀ c t, h.data = c :: t → isDigitCh c = true →
      convertToWebSocketUrl (h ++ ":" ++ p) = "ws://" ++ h ++ ":" ++ p ++ "/ws") ∧
    ((∀ c ∈ h.data, isLowerCh c = true) → isSpecialScheme h = false →
      convertToWebSocketUrl (h ++ ":" ++ p) = "ws:///ws") ∧
    (∀ s : String, parseURL s = none →
      (strHasPre "ws://" s = true ∨ strHasPre "wss://" s = true) →
      strHasSuf "/ws" s = true → convertToWebSocketUrl s = s) := by
  obtain ⟨hh1, hh2⟩ := simpleHost_spec h hh
  obtain ⟨hp1, hp2, hp3⟩ := portStr_spec p hp
  refine ⟨?_, ?_, ?_, ?_, fun c t hct hdig => ?_, fun hlo hsp => ?_, fun s hnone hws hsuf => ?_⟩
  · have hu := parseURL_special ("http://" ++ h ++ ":" ++ p) "http" h p
      (by simp [String.data_append, data_lit_httpp, data_lit_http, data_lit_colon])
      (by decide) (by decide) (by decide) hh hp
    unfold convertToWebSocketUrl
    rw [hu]
    by_cases hn : digitsToNat p.data = 80
    · have hdp : defaultPort "http" = some (digitsToNat p.data) := by rw [hn]; rfl
      simp only [hdp, if_true, hn, if_pos rfl]
      apply String.ext
      simp [urlHost, String.data_append, data_lit_ws, data_lit_sep, data_lit_slashws,
        data_lit_wsp]
    · have hdp : ¬(defaultPort "http" = some (digitsToNat p.data)) := by
        simp only [defaultPort, Option.some_inj]
        omega
      rw [if_neg hdp, if_neg hn]
      apply String.ext
      simp [urlHost, String.data_append, data_lit_ws, data_lit_sep, data_lit_colon,
        data_lit_slashws, data_lit_wsp]
  · have hu := parseURL_special ("https://" ++ h ++ ":" ++ p) "https" h p
      (by simp [String.data_append, data_lit_httpsp, data_lit_https, data_lit_colon])
      (by decide) (by decide) (by decide) hh hp
    unfold convertToWebSocketUrl
    rw [hu]
    by_cases hn : digitsToNat p.data = 443
    · have hdp : defaultPort "https" = some (digitsToNat p.data) := by rw [hn]; rfl
      simp only [hdp, if_true, hn, if_pos rfl]
      apply String.ext
      simp [urlHost, String.data_append, data_lit_wss, data_lit_sep, data_lit_slashws]
    · have hdp : ¬(defaultPort "https" = some (digitsToNat p.data)) := by
        simp only [defaultPort, Option.some_inj]
        omega
      rw [if_neg hdp, if_neg hn]
      apply String.ext
      simp [urlHost, String.data_append, data_lit_wss, data_lit_sep, data_lit_colon,
        data_lit_slashws]
  · have hu := parseURL_special ("ws://" ++ h ++ ":" ++ p) "ws" h p
      (by simp [String.data_append, data_lit_wsp, data_lit_ws, data_lit_colon])
      (by decide) (by decide) (by decide) hh hp
    unfold convertToWebSocketUrl
    rw [hu]
    by_cases hn : digitsToNat p.data = 80
    · have hdp : defaultPort "ws" = some (digitsToNat p.data) := by rw [hn]; rfl
      simp only [hdp, if_true, hn, if_pos rfl]
      apply String.ext
      simp [urlHost, String.data_append, data_lit_ws, data_lit_sep, data_lit_slashws,
        data_lit_wsp]
    · have hdp : ¬(defaultPort "ws" = some (digitsToNat p.data)) := by
        simp only [defaultPort, Option.some_inj]
        omega
      rw [if_neg hdp, if_neg hn]
      apply String.ext
      simp [urlHost, String.data_append, data_lit_ws, data_lit_sep, data_lit_colon,
        data_lit_slashws, data_lit_wsp]
  · have hu := parseURL_special ("wss://" ++ h ++ ":" ++ p) "wss" h p
      (by simp [String.data_append, data_lit_wssp, data_lit_wss, data_lit_colon])
      (by decide) (by decide) (by decide) hh hp
    unfold convertToWebSocketUrl
    rw [hu]
    by_cases hn : digitsToNat p.data = 443
    · have hdp : defaultPort "wss" = some (digitsToNat p.data) := by rw [hn]; rfl
      simp only [hdp, if_true, hn, if_pos rfl]
      apply String.ext
      simp [urlHost, String.data_append, data_lit_ws, data_lit_sep, data_lit_slashws,
        data_lit_wsp]
    · have hdp : ¬(defaultPort "wss" = some (digitsToNat p.data)) := by
        simp only [defaultPort, Option.some_inj]
        omega
      rw [if_neg hdp, if_neg hn]
      apply String.ext
      simp [urlHost, String.data_append, data_lit_ws, data_lit_sep, data_lit_colon,
        data_lit_slashws, data_lit_wsp]
  · have hnone := parseURL_bare_digit (h ++ ":" ++ p) h p
      (by simp [String.data_append, data_lit_colon]) hh2 c t hct hdig
    have hds : (h ++ ":" ++ p).data = c :: (t ++ ':' :: p.data) := by
      simp [String.data_append, data_lit_colon, hct]
    have hd48 : 48 ≤ c.toNat ∧ c.toNat ≤ 57 := by simpa [isDigitCh] using hdig
    have hch : ('h' : Char) ≠ c := by
      intro he; rw [← he] at hd48; exact absurd hd48 (by decide)
    have hcw : ('w' : Char) ≠ c := by
      intro he; rw [← he] at hd48; exact absurd hd48 (by decide)
    have f1 := strHasPre_false_head "http://" (h ++ ":" ++ p) 'h' c _ _ data_lit_httpp hds hch
    have f2 := strHasPre_false_head "https://" (h ++ ":" ++ p) 'h' c _ _ data_lit_httpsp hds hch
    have f3 := strHasPre_false_head "ws://" (h ++ ":" ++ p) 'w' c _ _ data_lit_wsp hds hcw
    have f4 := strHasPre_false_head "wss://" (h ++ ":" ++ p) 'w' c _ _ data_lit_wssp hds hcw
    unfold convertToWebSocketUrl
    rw [hnone]
    simp only [f1, f2, f3, f4, Bool.or_self, Bool.false_eq_true, if_false]
    apply String.ext
    simp [String.data_append, data_lit_wsp, data_lit_colon, data_lit_slashws]
  · obtain ⟨c, t, hct⟩ := List.exists_cons_of_ne_nil hp1
    have hu := parseURL_opaque (h ++ ":" ++ p) h p
      (by simp [String.data_append, data_lit_colon]) hh1 hlo hsp c t hct
      (hp2 c (hct ▸ List.mem_cons_self c t))
    have hnh : ¬(h = "https") := by
      intro he; rw [he] at hsp; exact absurd hsp (by decide)
    unfold convertToWebSocketUrl
    rw [hu]
    simp [hnh, urlHost]
  · rcases hws with hws | hws
    · obtain ⟨r, hr⟩ := List.isPrefixOf_iff_prefix.mp hws
      have hds : s.data = 'w' :: (['s', ':', '/', '/'] ++ r) := by
        rw [← hr]; simp [data_lit_wsp]
      have f1 := strHasPre_false_head "http://" s 'h' 'w' _ _ data_lit_httpp hds (by decide)
      have f2 := strHasPre_false_head "https://" s 'h' 'w' _ _ data_lit_httpsp hds (by decide)
      unfold convertToWebSocketUrl
      rw [hnone]
      simp [f1, f2, hws, hsuf]
    · obtain ⟨r, hr⟩ := List.isPrefixOf_iff_prefix.mp hws
      have hds : s.data = 'w' :: (['s', 's', ':', '/', '/'] ++ r) := by
        rw [← hr]; simp [data_lit_wssp]
      have f1 := strHasPre_false_head "http://" s 'h' 'w' _ _ data_lit_httpp hds (by decide)
      have f2 := strHasPre_false_head "https://" s 'h' 'w' _ _ data_lit_httpsp hds (by decide)
      unfold convertToWebSocketUrl
      rw [hnone]
      simp [f1, f2, hws, hsuf]

/-- Witness for the amended C2 on concrete hosts and ports, covering all
seven clauses. -/
theorem c2_url_normalization_amended_witness :
    convertToWebSocketUrl "http://example.com:3000" = "ws://example.com:3000/ws" ∧
    convertToWebSocketUrl "https://example.com:8443" = "wss://example.com:8443/ws" ∧
    convertToWebSocketUrl "ws://example.com:80" = "ws://example.com/ws" ∧
    convertToWebSocketUrl "wss://example.com:9001" = "ws://example.com:9001/ws" ∧
    convertToWebSocketUrl "192.168.0.115:3000" = "ws://192.168.0.115:3000/ws" ∧
    convertToWebSocketUrl "localhost:8080" = "ws:///ws" ∧
    convertToWebSocketUrl "ws://h:p/ws" = "ws://h:p/ws" := by
  have h1 := c2_url_normalization_amended "example.com" "3000" (by decide) (by decide)
  have h2 := c2_url_normalization_amended "example.com" "8443" (by decide) (by decide)
  have h3 := c2_url_normalization_amended "example.com" "80" (by decide) (by decide)
  have h4 := c2_url_normalization_amended "example.com" "9001" (by decide) (by decide)
  have h5 := c2_url_normalization_amended "192.168.0.115" "3000" (by decide) (by decide)
  have h6 := c2_url_normalization_amended "localhost" "8080" (by decide) (by decide)
  have h7 := c2_url_normalization_amended "h" "80" (by decide) (by decide)
  refine ⟨?_, ?_, ?_, ?_, ?_, ?_, ?_⟩
  · simpa using h1.1
  · simpa using h2.2.1
  · simpa using h3.2.2.1
  · simpa using h4.2.2.2.1
  · simpa using h5.2.2.2.2.1 '1' "92.168.0.115".data rfl (by decide)
  · simpa using h6.2.2.2.2.2.1 (by decide) (by decide)
  · exact h7.2.2.2.2.2.2 "ws://h:p/ws" (by decide) (Or.inl (by decide)) (by decide)

/-- C3.  Send gating: when the channel is not Open, `sendCommand`
returns `false` and performs no wire write; when it is Open, it returns
`true` and performs exactly one wire write carrying (the JSON
serialization of) `{command, speed, timestamp}` with the fresh emission
timestamp `now`. -/
theorem c3_send_gating (st : SvcState) (cmd : Command) (sp now : Int) :
    (isConnected st = false → sendCommand st cmd sp now = .ok (st, [], false)) ∧
    (isConnected st = true →
      sendCommand st cmd sp now = .ok (st, [Effect.wireSend (mkCarCommand cmd sp now)], true) ∧
      countWireSends [Effect.wireSend (mkCarCommand cmd sp now)] = 1) := by
  exact ⟨fun h => sendCommand_not_open st cmd sp now h,
    fun h => ⟨sendCommand_open st cmd sp now h, rfl⟩⟩

/-- Witness for C3 at a concrete Open state and at the initial (closed)
state. -/
theorem c3_send_gating_witness :
    isConnected { initState with socket := some ⟨ReadyState.opened, "ws://h:81/ws"⟩ } = true ∧
    sendCommand { initState with socket := some ⟨ReadyState.opened, "ws://h:81/ws"⟩ }
        Command.forward 200 1700000000000 =
      .ok ({ initState with socket := some ⟨ReadyState.opened, "ws://h:81/ws"⟩ },
           [Effect.wireSend (mkCarCommand Command.forward 200 1700000000000)], true) ∧
    isConnected initState = false ∧
    sendCommand initState Command.stop 0 5 = .ok (initState, [], false) :=
  ⟨rfl,
   ((c3_send_gating { initState with socket := some ⟨ReadyState.opened, "ws://h:81/ws"⟩ }
      Command.forward 200 1700000000000).2 (by decide)).1,
   rfl, (c3_send_gating initState Command.stop 0 5).1 (by decide)⟩

/-- C6.  No exception across the public API: `connect`, `sendCommand`,
`disconnect` (whose bodies contain throwing primitives under
`try`/`catch`, or only the non-throwing `close(1000)`), and the four
remaining public methods, always return normally, for every state and
every argument.  Subscriber callbacks are external caller code and are
modelled as returning normally. -/
theorem c6_no_throw :
    (∀ o url st, isOkB (connect o url st) = true) ∧
    (∀ st cmd sp now, isOkB (sendCommand st cmd sp now) = true) ∧
    (∀ st, isOkB (disconnect st) = true) ∧
    (∀ st e cb, isOkB (onEventE st e cb) = true) ∧
    (∀ st e cb, isOkB (offE st e cb) = true) ∧
    (∀ st, isOkB (isConnectedE st) = true) ∧
    (∀ st, isOkB (resetReconnectAttemptsE st) = true) := by
  refine ⟨fun o url st => ?_, fun st cmd sp now => ?_, fun st => ?_,
    fun _ _ _ => rfl, fun _ _ _ => rfl, fun _ => rfl, fun _ => rfl⟩
  · by_cases h : isConnected st
    · simp [connect, h, isOkB]
    · simp only [connect, h]
      rw [if_neg (by simp [h])]
      exact connectWebSocket_isOk o _
  · cases hc : isConnected st
    · rw [sendCommand_not_open st cmd sp now hc]; rfl
    · rw [sendCommand_open st cmd sp now hc]; rfl
  · cases hs : st.socket <;> simp [disconnect, closePrim, hs, isOkB]

/-- C7.  Idempotent connect: while the socket is Open, `connect` with
any URL leaves the state unchanged and performs no effect at all — in
particular no teardown and no socket creation. -/
theorem c7_idempotent_connect (o : Except String Unit) (url : String) (st : SvcState)
    (h : isConnected st = true) :
    connect o url st = .ok (st, []) ∧ countNewSockets ([] : List Effect) = 0 := by
  constructor
  · simp [connect, h]
  · rfl

/-- Witness for C7: a second `connect` on an Open socket is a no-op. -/
theorem c7_idempotent_connect_witness :
    connect (Except.ok ()) "http://h:82"
        { initState with socket := some ⟨ReadyState.opened, "ws://h:81/ws"⟩ } =
      .ok ({ initState with socket := some ⟨ReadyState.opened, "ws://h:81/ws"⟩ }, []) :=
  (c7_idempotent_connect (Except.ok ()) "http://h:82"
    { initState with socket := some ⟨ReadyState.opened, "ws://h:81/ws"⟩ } (by decide)).1

/-- C9.  Unsubscribe semantics: `off(k)` with no handler removes all
handlers for `k` (and only for `k`); `off(k, h)` removes exactly the
first registration of `h` for `k`: any other handler stays registered,
its multiplicity is unchanged, and it is still invoked (in order) by a
subsequent emit. -/
theorem c9_unsubscribe (st : SvcState) (k k' : String) (cb : Nat) (l : List Nat) (d : JsValue) :
    ((st.listeners.map Prod.fst).Nodup →
      mapGet (off st k none).listeners k = none ∧ emitCalls (off st k none) k d = []) ∧
    (k' ≠ k → mapGet (off st k none).listeners k' = mapGet st.listeners k') ∧
    (mapGet st.listeners k = some l →
      mapGet (off st k (some cb)).listeners k = some (l.erase cb) ∧
      emitCalls (off st k (some cb)) k d = (l.erase cb).map (fun c => (c, d)) ∧
      (∀ g ∈ l, g ≠ cb → g ∈ l.erase cb) ∧
      (∀ g, g ≠ cb → List.count g (l.erase cb) = List.count g l)) ∧
    (k' ≠ k → mapGet (off st k (some cb)).listeners k' = mapGet st.listeners k') := by
  refine ⟨fun hnd => ?_, fun hne => ?_, fun hget => ?_, fun hne => ?_⟩
  · have hdel : mapGet (off st k none).listeners k = none := by
      simpa [off] using mapGet_mapDelete_self st.listeners k hnd
    exact ⟨hdel, by simp [emitCalls, hdel]⟩
  · simpa [off] using mapGet_mapDelete_ne st.listeners k k' hne
  · have hup : mapGet (off st k (some cb)).listeners k = some (l.erase cb) := by
      simp [off, hget, mapGet_mapUpdate_self, spliceFirst_eq_erase]
    refine ⟨hup, by simp [emitCalls, hup], ?_, ?_⟩
    · intro g hg hgne
      exact (List.mem_erase_of_ne hgne).mpr hg
    · intro g hgne
      exact List.count_erase_of_ne hgne l
  · cases hget : mapGet st.listeners k with
    | none => simp [off, hget]
    | some v => simpa [off, hget] using mapGet_mapUpdate_ne st.listeners k k' _ hne

/-- Witness for C9 on a concrete registry with two handlers for
`"status"` and one for `"error"`. -/
theorem c9_unsubscribe_witness :
    mapGet (off { initState with listeners := [("status", [7, 9]), ("error", [3])] }
        "status" none).listeners "status" = none ∧
    mapGet (off { initState with listeners := [("status", [7, 9]), ("error", [3])] }
        "status" (some 7)).listeners "status" = some [9] ∧
    emitCalls (off { initState with listeners := [("status", [7, 9]), ("error", [3])] }
        "status" (some 7)) "status" (JsValue.bool true) = [(9, JsValue.bool true)] ∧
    mapGet (off { initState with listeners := [("status", [7, 9]), ("error", [3])] }
        "status" (some 7)).listeners "error" = some [3] := by
  have h := c9_unsubscribe { initState with listeners := [("status", [7, 9]), ("error", [3])] }
    "status" "error" 7 [7, 9] (JsValue.bool true)
  refine ⟨(h.1 (by decide)).1, ?_, ?_, ?_⟩
  · simpa using (h.2.2.1 rfl).1
  · simpa using (h.2.2.1 rfl).2.1
  · simpa using h.2.2.2 (by decide)

/-- C10.  Duplicate registration: `on(k, h)` never deduplicates —
registering `h` twice appends two entries, so an emit invokes `h` twice
in registration order; one `off(k, h)` removes only the first matching
entry, leaving one registration of `h` that is still invoked once. -/
theorem c10_duplicate_registration (st : SvcState) (k : String) (cb : Nat) (d : JsValue)
    (l : List Nat) (hget : mapGet st.listeners k = some l) (hmem : cb ∉ l) :
    mapGet (onEvent (onEvent st k cb) k cb).listeners k = some (l ++ [cb, cb]) ∧
    emitCalls (onEvent (onEvent st k cb) k cb) k d = (l ++ [cb, cb]).map (fun c => (c, d)) ∧
    List.count cb (l ++ [cb, cb]) = 2 ∧
    mapGet (off (onEvent (onEvent st k cb) k cb) k (some cb)).listeners k = some (l ++ [cb]) ∧
    emitCalls (off (onEvent (onEvent st k cb) k cb) k (some cb)) k d =
      (l ++ [cb]).map (fun c => (c, d)) ∧
    List.count cb (l ++ [cb]) = 1 := by
  have h1 : mapGet (onEvent st k cb).listeners k = some (l ++ [cb]) := by
    simpa [hget] using onEvent_lookup st k cb
  have h2 : mapGet (onEvent (onEvent st k cb) k cb).listeners k = some (l ++ [cb, cb]) := by
    have := onEvent_lookup (onEvent st k cb) k cb
    rw [h1] at this
    simpa using this
  have hsplice : spliceFirst (l ++ [cb, cb]) cb = l ++ [cb] := by
    rw [spliceFirst_append_right l [cb, cb] cb hmem]
    simp [spliceFirst]
  have h3 : mapGet (off (onEvent (onEvent st k cb) k cb) k (some cb)).listeners k =
      some (l ++ [cb]) := by
    simp [off, h2, mapGet_mapUpdate_self, hsplice]
  have hcount : List.count cb l = 0 := List.count_eq_zero.mpr hmem
  refine ⟨h2, by simp [emitCalls, h2], ?_, h3, by simp [emitCalls, h3], ?_⟩
  · simp [List.count_append, hcount]
  · simp [List.count_append, hcount]

/-- C5.  Inbound dispatch: each of the five documented tags produces
exactly the mapped event with the mapped payload; an unrecognized or
non-string tag produces no event; a frame that fails JSON parsing is
dropped with no event and no state change. -/
theorem c5_dispatch (st : SvcState) (m : JsValue) :
    (getProp m "type" = .str "car_status" →
      onmessage (.ok m) st = (st, [Effect.emitEv "status" (getProp m "data")])) ∧
    (getProp m "type" = .str "car_ack" →
      onmessage (.ok m) st = (st, [Effect.emitEv "acknowledgment"
        (.obj [("command", getProp m "command"), ("status", getProp m "status")])])) ∧
    (getProp m "type" = .str "car_connected" →
      onmessage (.ok m) st = (st, [Effect.emitEv "device_connected"
        (.obj [("device", getProp m "device"), ("status", getProp m "status")])])) ∧
    (getProp m "type" = .str "car_disconnected" →
      onmessage (.ok m) st = (st, [Effect.emitEv "device_disconnected" (.bool true)])) ∧
    (getProp m "type" = .str "error" →
      onmessage (.ok m) st = (st, [Effect.emitEv "error" (getProp m "message")])) ∧
    (∀ s, getProp m "type" = .str s →
      s ∉ (["car_status", "car_ack", "car_connected", "car_disconnected", "error"] :
        List String) →
      onmessage (.ok m) st = (st, [])) ∧
    ((∀ s, getProp m "type" ≠ .str s) → onmessage (.ok m) st = (st, [])) ∧
    (∀ e, onmessage (.error e) st = (st, [])) := by
  refine ⟨fun h => ?_, fun h => ?_, fun h => ?_, fun h => ?_, fun h => ?_,
    fun s h hnot => ?_, fun h => ?_, fun e => rfl⟩
  · simp [onmessage, dispatchMessage, h]
  · simp [onmessage, dispatchMessage, h]
  · simp [onmessage, dispatchMessage, h]
  · simp [onmessage, dispatchMessage, h]
  · simp [onmessage, dispatchMessage, h]
  · show (st, dispatchMessage m) = (st, [])
    unfold dispatchMessage
    rw [h]
    split <;> simp_all
  · show (st, dispatchMessage m) = (st, [])
    unfold dispatchMessage
    cases hv : getProp m "type" with
    | str s => exact absurd hv (h s)
    | undefined => simp
    | null => simp
    | bool b => simp
    | num n => simp
    | arr l => simp
    | obj fs => simp
    | jsErr e => simp

/-- Witness for C5 on concrete frames of all classes. -/
theorem c5_dispatch_witness :
    onmessage (.ok (JsValue.obj [("type", JsValue.str "car_status"),
        ("data", JsValue.obj [("connected", JsValue.bool true)])])) initState =
      (initState, [Effect.emitEv "status" (JsValue.obj [("connected", JsValue.bool true)])]) ∧
    onmessage (.ok (JsValue.obj [("type", JsValue.str "car_disconnected")])) initState =
      (initState, [Effect.emitEv "device_disconnected" (JsValue.bool true)]) ∧
    onmessage (.ok (JsValue.obj [("type", JsValue.str "pong")])) initState =
      (initState, []) ∧
    onmessage (.error "SyntaxError: Unexpected token") initState = (initState, []) := by
  refine ⟨?_, ?_, ?_, ?_⟩
  · exact (c5_dispatch initState _).1 rfl
  · exact (c5_dispatch initState _).2.2.2.1 rfl
  · exact (c5_dispatch initState _).2.2.2.2.2.1 "pong" rfl (by decide)
  · exact (c5_dispatch initState JsValue.null).2.2.2.2.2.2.2 "SyntaxError: Unexpected token"

/-- Every UI update of the caller's `motorSpeed` state keeps it an
integer in [0, 255]. -/
theorem speedBoundsAux (us : List SpeedUpdate) :
    ∀ s : Int, 0 ≤ s → s ≤ 255 →
      0 ≤ us.foldl applySpeedUpdate s ∧ us.foldl applySpeedUpdate s ≤ 255 := by
  induction us with
  | nil => intro s h0 h1; simpa using ⟨h0, h1⟩
  | cons u rest ih =>
    intro s h0 h1
    simp only [List.foldl_cons]
    apply ih
    · cases u <;> simp only [applySpeedUpdate] <;> omega
    · cases u <;> simp only [applySpeedUpdate] <;> omega

/-- C8.  Bounded outbound intensity: every speed the in-repo caller can
hold in `motorSpeed` is an integer in [0, 255], and a `sendCommand` wire
write transmits exactly that value in the `speed` field. -/
theorem c8_speed_bound (us : List SpeedUpdate) (st : SvcState) (cmd : Command) (now : Int)
    (h : isConnected st = true) :
    0 ≤ motorSpeedAfter us ∧ motorSpeedAfter us ≤ 255 ∧
    sendCommand st cmd (motorSpeedAfter us) now =
      .ok (st, [Effect.wireSend (mkCarCommand cmd (motorSpeedAfter us) now)], true) ∧
    getProp (mkCarCommand cmd (motorSpeedAfter us) now) "speed" =
      .num (motorSpeedAfter us) := by
  have hb := speedBoundsAux us 200 (by norm_num) (by norm_num)
  exact ⟨hb.1, hb.2, sendCommand_open st cmd (motorSpeedAfter us) now h,
    by simp [mkCarCommand, getProp, lookupField]⟩

/-- Witness for C8 after a concrete update sequence (increment, then a
typed-in 999 which the UI clamps). -/
theorem c8_speed_bound_witness :
    0 ≤ motorSpeedAfter [SpeedUpdate.inc, SpeedUpdate.input (some 999)] ∧
    motorSpeedAfter [SpeedUpdate.inc, SpeedUpdate.input (some 999)] ≤ 255 ∧
    sendCommand { initState with socket := some ⟨ReadyState.opened, "ws://h:81/ws"⟩ }
        Command.left (motorSpeedAfter [SpeedUpdate.inc, SpeedUpdate.input (some 999)]) 99 =
      .ok ({ initState with socket := some ⟨ReadyState.opened, "ws://h:81/ws"⟩ },
           [Effect.wireSend (mkCarCommand Command.left
             (motorSpeedAfter [SpeedUpdate.inc, SpeedUpdate.input (some 999)]) 99)], true) :=
  have h := c8_speed_bound [SpeedUpdate.inc, SpeedUpdate.input (some 999)]
    { initState with socket := some ⟨ReadyState.opened, "ws://h:81/ws"⟩ }
    Command.left 99 (by decide)
  ⟨h.1, h.2.1, h.2.2.1⟩

/-- C1.  Reconnect budget: below the cap of 5, `scheduleReconnect`
increments the counter first and schedules exactly one attempt; at the
cap it emits the terminal `error` carrying "Max reconnection attempts
reached" and schedules nothing; a successful `open` resets the counter
to 0.  Concretely, after a connect/open and an abnormal close followed
by construction-failing retries, exactly 5 attempts are scheduled, one
terminal error is emitted, and no further timer is armed (a 6th fire is
a no-op). -/
theorem c1_reconnect_budget :
    (∀ st : SvcState, st.maxReconnectAttempts = 5 →
      (st.reconnectAttempts < 5 →
        (scheduleReconnect st).1.reconnectAttempts = st.reconnectAttempts + 1 ∧
        (scheduleReconnect st).1.reconnectTimeout = true ∧
        countSetTimers (scheduleReconnect st).2 = 1 ∧
        countErrEmits "Max reconnection attempts reached" (scheduleReconnect st).2 = 0) ∧
      (5 ≤ st.reconnectAttempts →
        (scheduleReconnect st).1 = st ∧
        countSetTimers (scheduleReconnect st).2 = 0 ∧
        countErrEmits "Max reconnection attempts reached" (scheduleReconnect st).2 = 1)) ∧
    (∀ st : SvcState, (onopen st).1.reconnectAttempts = 0) ∧
    (countSetTimers (run ⟨initState, false⟩ c1Trace).2 = 5 ∧
     countErrEmits "Max reconnection attempts reached" (run ⟨initState, false⟩ c1Trace).2 = 1 ∧
     (run ⟨initState, false⟩ c1Trace).1.armed = false ∧
     (run ⟨initState, false⟩ c1Trace).1.svc.reconnectAttempts = 5 ∧
     step (run ⟨initState, false⟩ c1Trace).1 failFire = ((run ⟨initState, false⟩ c1Trace).1, [])) := by
  refine ⟨fun st h5 => ⟨fun hlt => ?_, fun hge => ?_⟩, fun st => ?_,
    by decide, by decide, by decide, by decide, ?_⟩
  · have hno : ¬st.reconnectAttempts ≥ st.maxReconnectAttempts := by omega
    refine ⟨?_, ?_, ?_, ?_⟩ <;>
      simp [scheduleReconnect, hno] <;>
      cases htt : st.reconnectTimeout <;>
      simp [countSetTimers, countErrEmits]
  · have hyes : st.reconnectAttempts ≥ st.maxReconnectAttempts := by omega
    refine ⟨?_, ?_, ?_⟩ <;> simp [scheduleReconnect, hyes, countSetTimers, countErrEmits]
  · cases htt : st.reconnectTimeout <;> simp [onopen, htt]
  · rfl

/-- Witness for C1 at counter values 2 (below cap) and 5 (at cap). -/
theorem c1_reconnect_budget_witness :
    (scheduleReconnect { initState with reconnectAttempts := 2 }).1.reconnectAttempts = 3 ∧
    countSetTimers (scheduleReconnect { initState with reconnectAttempts := 5 }).2 = 0 ∧
    countErrEmits "Max reconnection attempts reached"
      (scheduleReconnect { initState with reconnectAttempts := 5 }).2 = 1 :=
  have h := c1_reconnect_budget
  ⟨((h.1 { initState with reconnectAttempts := 2 } rfl).1 (by decide)).1,
   ((h.1 { initState with reconnectAttempts := 5 } rfl).2 (by decide)).2.1,
   ((h.1 { initState with reconnectAttempts := 5 } rfl).2 (by decide)).2.2⟩

/-- C4 counterexample.  After a `connect` whose socket construction
throws (socket = null, reconnect timer armed by the catch path), a
`disconnect()` call does NOT cancel the pending reconnect timer — the
timer stays armed, the handle field stays set, and when the timer later
fires it schedules yet another reconnect attempt, contradicting the
claim that every `disconnect()` cancels any pending reconnect timer. -/
theorem c4_disconnect_counterexample :
    (run ⟨initState, false⟩ c4Trace).1.armed = true ∧
    (run ⟨initState, false⟩ c4Trace).1.svc.reconnectTimeout = true ∧
    (run ⟨initState, false⟩ c4Trace).1.svc.socket = none ∧
    (run ⟨initState, false⟩ c4Trace).1.svc.listeners = [] ∧
    countSetTimers (step (run ⟨initState, false⟩ c4Trace).1 failFire).2 = 1 := by
  exact ⟨by decide, by decide, by decide, by decide, by decide⟩

/-- C4 as amended.  When a socket reference is present, `disconnect()`
cancels any pending reconnect timer, closes the socket with the normal
code 1000 (whose close event schedules no reconnect), discards the
reference, clears all subscriptions and zeroes the counter; when the
socket reference is null (e.g. after a failed construction), it still
clears subscriptions and zeroes the counter but leaves a pending
reconnect timer armed. -/
theorem c4_disconnect_amended (st : SvcState) (s : Sock) :
    (st.socket = some s →
      disconnect st =
        .ok ({ st with socket := none, listeners := [], reconnectAttempts := 0,
                       reconnectTimeout := false },
             (if st.reconnectTimeout then [Effect.clearTimer] else []) ++
               [Effect.closeSocket (some 1000) (some "Manual disconnect")])) ∧
    (onclose 1000 st = (st, [Effect.emitEv "connected" (.bool false)])) ∧
    (st.socket = none →
      disconnect st = .ok ({ st with listeners := [], reconnectAttempts := 0 }, [])) := by
  obtain ⟨so, li, ra, ma, rt, rd, wu⟩ := st
  refine ⟨fun hs => ?_, by simp [onclose], fun hs => ?_⟩
  · subst hs
    cases rt <;> simp [disconnect, closePrim]
  · subst hs
    simp [disconnect]

/-- Witness for the amended C4 in both branches. -/
theorem c4_disconnect_amended_witness :
    disconnect { initState with socket := some ⟨ReadyState.opened, "ws://h:81/ws"⟩,
                                reconnectTimeout := true } =
      .ok ({ initState with socket := none, listeners := [], reconnectAttempts := 0,
                            reconnectTimeout := false },
           [Effect.clearTimer, Effect.closeSocket (some 1000) (some "Manual disconnect")]) ∧
    disconnect { initState with reconnectTimeout := true, reconnectAttempts := 3 } =
      .ok ({ initState with reconnectTimeout := true, listeners := [],
                            reconnectAttempts := 0 }, []) := by
  constructor
  · exact (c4_disconnect_amended
      { initState with socket := some ⟨ReadyState.opened, "ws://h:81/ws"⟩,
                       reconnectTimeout := true }
      ⟨ReadyState.opened, "ws://h:81/ws"⟩).1 rfl
  · exact (c4_disconnect_amended
      { initState with reconnectTimeout := true, reconnectAttempts := 3 }
      ⟨ReadyState.opened, ""⟩).2.2 rfl

/-- Witness for C10: registering handler 7 twice on a fresh registry. -/
theorem c10_duplicate_registration_witness :
    mapGet (onEvent (onEvent { initState with listeners := [("status", [])] } "status" 7)
        "status" 7).listeners "status" = some [7, 7] ∧
    emitCalls (onEvent (onEvent { initState with listeners := [("status", [])] } "status" 7)
        "status" 7) "status" JsValue.null = [(7, JsValue.null), (7, JsValue.null)] ∧
    mapGet (off (onEvent (onEvent { initState with listeners := [("status", [])] } "status" 7)
        "status" 7) "status" (some 7)).listeners "status" = some [7] := by
  have h := c10_duplicate_registration { initState with listeners := [("status", [])] }
    "status" 7 JsValue.null [] rfl (by decide)
  exact ⟨by simpa using h.1, by simpa using h.2.1, by simpa using h.2.2.2.1⟩

end CarSocket
